import Mathlib

/-!
Verification of `src/firmware/electron-maintain-capacity.cpp` (Particle
Electron "maintain minimum battery capacity" firmware).

The firmware keeps two retained (power-loss-surviving) variables:
`last_battery_capacity : float` and `low_batt_sleep_attempts : uint32_t`.
A timer periodically runs `qualify_battery_and_hibernate`, which reads the
battery state of charge (SoC) from the fuel gauge, and if it is strictly
below `LOW_BATT_CAPACITY` (20.0), increments the attempt counter, computes a
sleep duration `144 * sleep_backoff(counter) / 100`, opportunistically
publishes a telemetry event when connected, and enters
`SLEEP_MODE_SOFTPOWEROFF` — a deep power-off from which execution never
returns (the device reboots afterwards, retained memory intact).  The
`low_batt_sleep_attempts = 0` reset after the `if` is therefore only reached
on the at-or-above-threshold path; the sleep primitive is modelled as
terminal for the run.

We model the SoC reading as a rational number (the comparisons the firmware
performs are exact at every value the claims exercise), machine `uint32_t`
arithmetic as natural numbers reduced modulo `2 ^ 32` where overflow is
possible, and the externally visible side effects (publish, sleep, serial
output) as explicit event lists.
-/

/-- The low-battery threshold: `const float LOW_BATT_CAPACITY = 20.0`. -/
def LOW_BATT_CAPACITY : ℚ := 20

/-- `uint32_t sleep_backoff(uint32_t attempt_num)`: returns `0` for
`attempt_num == 0`, otherwise `1000*(1 << min(7u, attempt_num/3))`
milliseconds.  `1 << e` is `2 ^ e`; with the exponent capped at 7 the value
is at most `128000 < 2 ^ 32`, so no modular reduction is needed. -/
def sleep_backoff (attempt_num : Nat) : Nat :=
  if attempt_num = 0 then 0
  else 1000 * 2 ^ min 7 (attempt_num / 3)

/-- `bool battery_lower_than(float capacity)`: compares the fuel-gauge SoC
reading strictly against `capacity`.  The SoC reading is passed explicitly. -/
def battery_lower_than (soc capacity : ℚ) : Bool :=
  soc < capacity

/-- The retained program state: the two `retained` variables of the firmware. -/
structure DeviceState where
  last_battery_capacity : ℚ
  low_batt_sleep_attempts : Nat
deriving DecidableEq, Repr

/-- Externally visible side effects of `qualify_battery_and_hibernate`:
a `Particle.publish` of the computed sleep time, or the
`System.sleep(SLEEP_MODE_SOFTPOWEROFF, sleep_time)` call itself. -/
inductive Event where
  | publish (sleep_time : Nat)
  | sleep (sleep_time : Nat)
deriving DecidableEq, Repr

/-- `void qualify_battery_and_hibernate()`.  If the SoC is strictly below
`LOW_BATT_CAPACITY`: pre-increment the retained `uint32_t` counter (modulo
`2 ^ 32`), compute `sleep_time = 144 * sleep_backoff(counter) / 100`
(C unsigned integer division), publish the stats event only when
`Particle.connected()`, then power off — `SLEEP_MODE_SOFTPOWEROFF` never
returns, so the trailing counter reset is not reached on this path.
Otherwise: reset the counter to 0 with no events. -/
def qualify_battery_and_hibernate (soc : ℚ) (connected : Bool) (st : DeviceState) :
    DeviceState × List Event :=
  if battery_lower_than soc LOW_BATT_CAPACITY then
    let attempts := (st.low_batt_sleep_attempts + 1) % 2 ^ 32
    let sleep_time := 144 * sleep_backoff attempts / 100
    ({ st with low_batt_sleep_attempts := attempts },
      (if connected then [Event.publish sleep_time] else []) ++ [Event.sleep sleep_time])
  else
    ({ st with low_batt_sleep_attempts := 0 }, [])

/-- The serial lines `processSerial` can print, one constructor per
`MY_SERIAL.println` / `printlnf` branch. -/
inductive SerialOut where
  | quickstartStats
  | batteryStats
  | runningQualify
  | fuelGaugeVersion
  | helpMenu
  | badCommand
deriving DecidableEq, Repr

/-- `void processSerial()`, for the case where a character `c` has been read
from the serial port.  Commands `q`/`Q`/`v`/`h` only read hardware and print;
`b` runs `qualify_battery_and_hibernate`; any other character prints the
"Bad command!" error and changes nothing. -/
def processSerial (c : Char) (soc : ℚ) (connected : Bool) (st : DeviceState) :
    DeviceState × List Event × List SerialOut :=
  if c = 'q' then (st, [], [SerialOut.quickstartStats])
  else if c = 'Q' then (st, [], [SerialOut.batteryStats])
  else if c = 'b' then
    let r := qualify_battery_and_hibernate soc connected st
    (r.1, r.2, [SerialOut.runningQualify])
  else if c = 'v' then (st, [], [SerialOut.fuelGaugeVersion])
  else if c = 'h' then (st, [], [SerialOut.helpMenu])
  else (st, [], [SerialOut.badCommand])

/-- Modelled from the spec: `sleepBackoffSeconds(n) = 2^min(7, n/3)` for
`n ≥ 1` and `0` for `n = 0` — the spec's seconds-valued abstraction of the
backoff series, used to compare the code's computed duration against the
spec's formula `scalingFactor * sleepBackoffSeconds(n) * 1000 / 100`. -/
def sleepBackoffSeconds (n : Nat) : Nat :=
  if n = 0 then 0 else 2 ^ min 7 (n / 3)

/- ## Helper lemmas -/

theorem sleep_backoff_le_128000 (n : Nat) : sleep_backoff n ≤ 128000 := by
  unfold sleep_backoff
  split
  · omega
  · have h : min 7 (n / 3) ≤ 7 := Nat.min_le_left _ _
    have h2 : 2 ^ min 7 (n / 3) ≤ 2 ^ 7 := Nat.pow_le_pow_right (by norm_num) h
    omega

theorem sleep_backoff_eq_of_pos (n : Nat) (h : 1 ≤ n) :
    sleep_backoff n = 1000 * 2 ^ min 7 (n / 3) := by
  unfold sleep_backoff
  rw [if_neg (by omega)]

theorem sleep_time_eq (n : Nat) :
    144 * sleep_backoff n / 100 = 1440 * sleepBackoffSeconds n := by
  by_cases hn : n = 0
  · simp [sleep_backoff, sleepBackoffSeconds, hn]
  · simp only [sleep_backoff, sleepBackoffSeconds, if_neg hn]
    rw [show (144 : Nat) * (1000 * 2 ^ min 7 (n / 3))
          = 100 * (1440 * 2 ^ min 7 (n / 3)) from by ring]
    exact Nat.mul_div_cancel_left _ (by norm_num)

theorem spec_formula_eq (n : Nat) :
    144 * sleepBackoffSeconds n * 1000 / 100 = 1440 * sleepBackoffSeconds n := by
  rw [show 144 * sleepBackoffSeconds n * 1000
        = 100 * (1440 * sleepBackoffSeconds n) from by ring]
  exact Nat.mul_div_cancel_left _ (by norm_num)

theorem sleepBackoffSeconds_bounds (n : Nat) (h : 1 ≤ n) :
    1 ≤ sleepBackoffSeconds n ∧ sleepBackoffSeconds n ≤ 128 := by
  simp only [sleepBackoffSeconds, if_neg (by omega : ¬ n = 0)]
  constructor
  · exact Nat.one_le_two_pow
  · exact Nat.pow_le_pow_right (by norm_num) (Nat.min_le_left _ _)

theorem sleepBackoffSeconds_sat (n : Nat) (h : 21 ≤ n) :
    sleepBackoffSeconds n = 128 := by
  simp only [sleepBackoffSeconds, if_neg (by omega : ¬ n = 0)]
  have : min 7 (n / 3) = 7 := by omega
  rw [this]
  norm_num

/- ## Claims -/

/-- Claim C1, as stated, is false: `sleep_backoff` returns milliseconds, so
at attempt 1 it returns `1000`, not `2 ^ min 7 (1 / 3) = 1`. -/
theorem C1_cex : sleep_backoff 1 ≠ 2 ^ min 7 (1 / 3) := by decide

/-- Claim C1 (amended): `sleep_backoff 0 = 0`; for `n ≥ 1` the result is
`1000 * 2 ^ min 7 (n / 3)` milliseconds (integer division); the tier exponent
sequence for attempts 1..21 is 0,0,1,1,1,2,2,2,…,7 and the exponent saturates
at 7 for every attempt ≥ 21, so the value saturates at `1000 * 2 ^ 7`. -/
theorem C1_backoff_formula (n : Nat) (h : 1 ≤ n) :
    sleep_backoff 0 = 0 ∧
    sleep_backoff n = 1000 * 2 ^ min 7 (n / 3) ∧
    (21 ≤ n → sleep_backoff n = 1000 * 2 ^ 7) ∧
    (List.range 21).map (fun i => min 7 ((i + 1) / 3))
      = [0, 0, 1, 1, 1, 2, 2, 2, 3, 3, 3, 4, 4, 4, 5, 5, 5, 6, 6, 6, 7] := by
  refine ⟨rfl, sleep_backoff_eq_of_pos n h, ?_, by decide⟩
  intro h21
  rw [sleep_backoff_eq_of_pos n h]
  have : min 7 (n / 3) = 7 := by omega
  rw [this]

/-- Witness for C1's amended theorem at `n = 21`. -/
theorem C1_backoff_formula_w :
    sleep_backoff 0 = 0 ∧
    sleep_backoff 21 = 1000 * 2 ^ min 7 (21 / 3) ∧
    (21 ≤ 21 → sleep_backoff 21 = 1000 * 2 ^ 7) ∧
    (List.range 21).map (fun i => min 7 ((i + 1) / 3))
      = [0, 0, 1, 1, 1, 2, 2, 2, 3, 3, 3, 4, 4, 4, 5, 5, 5, 6, 6, 6, 7] :=
  C1_backoff_formula 21 (by decide)

/-- Claim C5, as stated, is false: `sleep_backoff 1 = 1000`, which exceeds
the claimed upper bound of 128 (the bound 128 holds for the seconds-valued
series, not for the milliseconds the function returns). -/
theorem C5_cex : ¬ sleep_backoff 1 ≤ 128 := by decide

/-- Claim C5 (amended): `sleep_backoff` is monotonically non-decreasing, and
its result is bounded above by `128000` (128 seconds in milliseconds) for
every input. -/
theorem C5_monotone_bounded (m n : Nat) (h : m ≤ n) :
    sleep_backoff m ≤ sleep_backoff n ∧ sleep_backoff n ≤ 128000 := by
  refine ⟨?_, sleep_backoff_le_128000 n⟩
  by_cases hm : m = 0
  · simp [sleep_backoff, hm]
  · have hn : ¬ n = 0 := by omega
    simp only [sleep_backoff, if_neg hm, if_neg hn]
    have hmin : min 7 (m / 3) ≤ min 7 (n / 3) :=
      min_le_min (le_refl 7) (Nat.div_le_div_right h)
    exact Nat.mul_le_mul_left _ (Nat.pow_le_pow_right (by norm_num) hmin)

/-- Witness for C5's amended theorem at `m = 2, n = 9`. -/
theorem C5_monotone_bounded_w :
    sleep_backoff 2 ≤ sleep_backoff 9 ∧ sleep_backoff 9 ≤ 128000 :=
  C5_monotone_bounded 2 9 (by decide)

/-- Claim C2: on each qualification call (sleep modelled as terminal), the
persisted counter is incremented by exactly 1 when SoC reads strictly below
the threshold (in particular the sleep-triggering call does not reset it),
is set to exactly 0 on a call reading SoC at or above the threshold, and
after such a reset a below-threshold call restarts it at 1.  The hypothesis
excludes the `uint32_t` wrap at `2 ^ 32 - 1`. -/
theorem C2_counter_dynamics (st : DeviceState) (soc : ℚ) (conn : Bool)
    (h : st.low_batt_sleep_attempts + 1 < 2 ^ 32) :
    (soc < LOW_BATT_CAPACITY →
      (qualify_battery_and_hibernate soc conn st).1.low_batt_sleep_attempts
        = st.low_batt_sleep_attempts + 1) ∧
    (LOW_BATT_CAPACITY ≤ soc →
      (qualify_battery_and_hibernate soc conn st).1.low_batt_sleep_attempts = 0) ∧
    (soc < LOW_BATT_CAPACITY →
      (qualify_battery_and_hibernate soc conn
          { st with low_batt_sleep_attempts := 0 }).1.low_batt_sleep_attempts = 1) := by
  refine ⟨fun hs => ?_, fun hs => ?_, fun hs => ?_⟩
  · have hm : (st.low_batt_sleep_attempts + 1) % 4294967296
        = st.low_batt_sleep_attempts + 1 := Nat.mod_eq_of_lt (by omega)
    simp [qualify_battery_and_hibernate, battery_lower_than, hs, hm]
  · simp [qualify_battery_and_hibernate, battery_lower_than, not_lt.mpr hs]
  · simp [qualify_battery_and_hibernate, battery_lower_than, hs]

/-- Witness for C2 at `soc = 15`, counter 5. -/
theorem C2_counter_dynamics_w :
    ((15 : ℚ) < LOW_BATT_CAPACITY →
      (qualify_battery_and_hibernate 15 true
          ⟨0, 5⟩).1.low_batt_sleep_attempts = 5 + 1) ∧
    (LOW_BATT_CAPACITY ≤ (15 : ℚ) →
      (qualify_battery_and_hibernate 15 true ⟨0, 5⟩).1.low_batt_sleep_attempts = 0) ∧
    ((15 : ℚ) < LOW_BATT_CAPACITY →
      (qualify_battery_and_hibernate 15 true
          ⟨0, 0⟩).1.low_batt_sleep_attempts = 1) :=
  C2_counter_dynamics ⟨0, 5⟩ 15 true (by norm_num)

/-- Claim C3: a sleep-triggering call with post-increment counter `n ≥ 1`
passes the duration `144 * sleepBackoffSeconds n * 1000 / 100` (the spec's
fixed-point formula, with the code computing `144 * sleep_backoff(n) / 100`
over milliseconds) to the sleep primitive; for `n = 1` that duration is
`1440`, not truncated to zero. -/
theorem C3_sleep_duration (st : DeviceState) (soc : ℚ) (conn : Bool)
    (h1 : soc < LOW_BATT_CAPACITY) (h2 : st.low_batt_sleep_attempts + 1 < 2 ^ 32) :
    Event.sleep (144 * sleepBackoffSeconds (st.low_batt_sleep_attempts + 1) * 1000 / 100)
      ∈ (qualify_battery_and_hibernate soc conn st).2 ∧
    (st.low_batt_sleep_attempts = 0 →
      Event.sleep 1440 ∈ (qualify_battery_and_hibernate soc conn st).2) := by
  have key : 144 * sleep_backoff ((st.low_batt_sleep_attempts + 1) % 2 ^ 32) / 100
      = 144 * sleepBackoffSeconds (st.low_batt_sleep_attempts + 1) * 1000 / 100 := by
    rw [Nat.mod_eq_of_lt h2, sleep_time_eq, spec_formula_eq]
  constructor
  · simp only [qualify_battery_and_hibernate, battery_lower_than, h1, decide_True,
      if_true, key]
    simp
  · intro h0
    have key2 : 144 * sleep_backoff ((st.low_batt_sleep_attempts + 1) % 2 ^ 32) / 100
        = 1440 := by
      rw [h0, Nat.mod_eq_of_lt (by norm_num), sleep_time_eq]
      norm_num [sleepBackoffSeconds]
    simp only [qualify_battery_and_hibernate, battery_lower_than, h1, decide_True,
      if_true, key2]
    simp

/-- Witness for C3 at `soc = 15`, counter 0. -/
theorem C3_sleep_duration_w :
    Event.sleep (144 * sleepBackoffSeconds (0 + 1) * 1000 / 100)
      ∈ (qualify_battery_and_hibernate 15 true (⟨0, 0⟩ : DeviceState)).2 ∧
    ((⟨0, 0⟩ : DeviceState).low_batt_sleep_attempts = 0 →
      Event.sleep 1440 ∈ (qualify_battery_and_hibernate 15 true (⟨0, 0⟩ : DeviceState)).2) :=
  C3_sleep_duration ⟨0, 0⟩ 15 true (by norm_num [LOW_BATT_CAPACITY]) (by norm_num)

/-- Claim C4: at SoC exactly equal to the 20.0 threshold no sleep and no
publish occur (the event list is empty), the counter ends at exactly 0, and
the sleep-branch comparison `battery_lower_than` is strict less-than, hence
false at the boundary. -/
theorem C4_boundary (st : DeviceState) (conn : Bool) :
    battery_lower_than LOW_BATT_CAPACITY LOW_BATT_CAPACITY = false ∧
    qualify_battery_and_hibernate LOW_BATT_CAPACITY conn st
      = ({ st with low_batt_sleep_attempts := 0 }, []) := by
  constructor
  · simp [battery_lower_than]
  · simp [qualify_battery_and_hibernate, battery_lower_than]

/-- Claim C6: on a sleep-triggering call with connectivity reporting not
connected, no publish event is emitted, the sleep primitive is still invoked
— the event trace is exactly the one sleep call — the duration is the same
one a connected call would pass, and the resulting state is identical. -/
theorem C6_disconnected (st : DeviceState) (soc : ℚ)
    (h : soc < LOW_BATT_CAPACITY) :
    (∀ d, Event.publish d ∉ (qualify_battery_and_hibernate soc false st).2) ∧
    (qualify_battery_and_hibernate soc false st).2
      = [Event.sleep
          (144 * sleep_backoff ((st.low_batt_sleep_attempts + 1) % 2 ^ 32) / 100)] ∧
    Event.sleep (144 * sleep_backoff ((st.low_batt_sleep_attempts + 1) % 2 ^ 32) / 100)
      ∈ (qualify_battery_and_hibernate soc true st).2 ∧
    (qualify_battery_and_hibernate soc false st).1
      = (qualify_battery_and_hibernate soc true st).1 := by
  refine ⟨fun d => ?_, ?_, ?_, ?_⟩ <;>
    simp [qualify_battery_and_hibernate, battery_lower_than, h]

/-- Witness for C6 at `soc = 15`, counter 3. -/
theorem C6_disconnected_w :
    (∀ d, Event.publish d ∉ (qualify_battery_and_hibernate 15 false (⟨0, 3⟩ : DeviceState)).2) ∧
    (qualify_battery_and_hibernate 15 false (⟨0, 3⟩ : DeviceState)).2
      = [Event.sleep (144 * sleep_backoff ((3 + 1) % 2 ^ 32) / 100)] ∧
    Event.sleep (144 * sleep_backoff ((3 + 1) % 2 ^ 32) / 100)
      ∈ (qualify_battery_and_hibernate 15 true (⟨0, 3⟩ : DeviceState)).2 ∧
    (qualify_battery_and_hibernate 15 false (⟨0, 3⟩ : DeviceState)).1
      = (qualify_battery_and_hibernate 15 true (⟨0, 3⟩ : DeviceState)).1 :=
  C6_disconnected ⟨0, 3⟩ 15 (by norm_num [LOW_BATT_CAPACITY])

/-- Claim C7: two consecutive qualification calls with the SoC held constant
at any value above the threshold leave the attempt counter at 0 after each
call (the above-threshold pass is idempotent on the persisted state). -/
theorem C7_idempotent_above (st : DeviceState) (soc : ℚ) (c₁ c₂ : Bool)
    (h : LOW_BATT_CAPACITY < soc) :
    (qualify_battery_and_hibernate soc c₁ st).1.low_batt_sleep_attempts = 0 ∧
    (qualify_battery_and_hibernate soc c₂
        (qualify_battery_and_hibernate soc c₁ st).1).1.low_batt_sleep_attempts = 0 := by
  have hb : ¬ soc < LOW_BATT_CAPACITY := not_lt.mpr h.le
  constructor <;> simp [qualify_battery_and_hibernate, battery_lower_than, hb]

/-- Witness for C7 at `soc = 50`, counter 7. -/
theorem C7_idempotent_above_w :
    (qualify_battery_and_hibernate 50 true (⟨0, 7⟩ : DeviceState)).1.low_batt_sleep_attempts
      = 0 ∧
    (qualify_battery_and_hibernate 50 false
        (qualify_battery_and_hibernate 50 true
          (⟨0, 7⟩ : DeviceState)).1).1.low_batt_sleep_attempts = 0 :=
  C7_idempotent_above ⟨0, 7⟩ 50 true false (by norm_num [LOW_BATT_CAPACITY])

/-- Claim C8: for any console character outside the recognized commands
`q`, `Q`, `b`, `v`, `h`, the handler prints the "Bad command!" error and
leaves the whole state unchanged — in particular `last_battery_capacity`
and `low_batt_sleep_attempts` keep their values — and emits no events. -/
theorem C8_bad_command (c : Char) (soc : ℚ) (conn : Bool) (st : DeviceState)
    (h : c ∉ ['q', 'Q', 'b', 'v', 'h']) :
    processSerial c soc conn st = (st, [], [SerialOut.badCommand]) ∧
    (processSerial c soc conn st).1.last_battery_capacity
      = st.last_battery_capacity ∧
    (processSerial c soc conn st).1.low_batt_sleep_attempts
      = st.low_batt_sleep_attempts := by
  simp only [List.mem_cons, List.not_mem_nil, or_false, not_or] at h
  obtain ⟨h1, h2, h3, h4, h5⟩ := h
  have : processSerial c soc conn st = (st, [], [SerialOut.badCommand]) := by
    simp [processSerial, h1, h2, h3, h4, h5]
  exact ⟨this, by rw [this], by rw [this]⟩

/-- Witness for C8 at the unrecognized character `x`. -/
theorem C8_bad_command_w :
    processSerial 'x' 15 true (⟨7, 3⟩ : DeviceState)
      = ((⟨7, 3⟩ : DeviceState), [], [SerialOut.badCommand]) ∧
    (processSerial 'x' 15 true (⟨7, 3⟩ : DeviceState)).1.last_battery_capacity
      = (⟨7, 3⟩ : DeviceState).last_battery_capacity ∧
    (processSerial 'x' 15 true (⟨7, 3⟩ : DeviceState)).1.low_batt_sleep_attempts
      = (⟨7, 3⟩ : DeviceState).low_batt_sleep_attempts :=
  C8_bad_command 'x' 15 true ⟨7, 3⟩ (by decide)

/-- Claim C9: for every attempt number, `144 * sleep_backoff n` is at most
`18432000 = 144 * 128000`, which fits in 32-bit unsigned arithmetic, and is
exactly divisible by 100, so the division `/ 100` is exact and for `n ≥ 1`
the sleep duration equals `1440 * 2 ^ min 7 (n / 3)`. -/
theorem C9_no_overflow (n : Nat) :
    144 * sleep_backoff n ≤ 18432000 ∧
    (18432000 : Nat) < 2 ^ 32 ∧
    100 ∣ 144 * sleep_backoff n ∧
    (1 ≤ n → 144 * sleep_backoff n / 100 = 1440 * 2 ^ min 7 (n / 3)) := by
  refine ⟨?_, by norm_num, ?_, fun h => ?_⟩
  · have := sleep_backoff_le_128000 n
    omega
  · by_cases hn : n = 0
    · simp [sleep_backoff, hn]
    · rw [sleep_backoff_eq_of_pos n (by omega)]
      exact ⟨1440 * 2 ^ min 7 (n / 3), by ring⟩
  · rw [sleep_time_eq]
    simp only [sleepBackoffSeconds, if_neg (by omega : ¬ n = 0)]

/-- Witness for C9 at `n = 21`. -/
theorem C9_no_overflow_w :
    144 * sleep_backoff 21 ≤ 18432000 ∧
    (18432000 : Nat) < 2 ^ 32 ∧
    100 ∣ 144 * sleep_backoff 21 ∧
    (1 ≤ 21 → 144 * sleep_backoff 21 / 100 = 1440 * 2 ^ min 7 (21 / 3)) :=
  C9_no_overflow 21

/-- Claim C10: every sleep-triggering call requests a sleep, every requested
duration lies between 1440 and 184320 inclusive, and from attempt 21 onward
(counter ≥ 20 before the pre-increment) the requested duration is exactly the
maximum 184320. -/
theorem C10_duration_bounds (st : DeviceState) (soc : ℚ) (conn : Bool)
    (h1 : soc < LOW_BATT_CAPACITY) (h2 : st.low_batt_sleep_attempts + 1 < 2 ^ 32) :
    (∃ d, Event.sleep d ∈ (qualify_battery_and_hibernate soc conn st).2) ∧
    (∀ d, Event.sleep d ∈ (qualify_battery_and_hibernate soc conn st).2 →
      1440 ≤ d ∧ d ≤ 184320) ∧
    (20 ≤ st.low_batt_sleep_attempts →
      Event.sleep 184320 ∈ (qualify_battery_and_hibernate soc conn st).2) := by
  have hm : (st.low_batt_sleep_attempts + 1) % 2 ^ 32
      = st.low_batt_sleep_attempts + 1 := Nat.mod_eq_of_lt h2
  refine ⟨?_, fun d hd => ?_, fun h20 => ?_⟩
  · exact ⟨144 * sleep_backoff ((st.low_batt_sleep_attempts + 1) % 2 ^ 32) / 100,
      by simp [qualify_battery_and_hibernate, battery_lower_than, h1]⟩
  · have hb2 := sleepBackoffSeconds_bounds (st.low_batt_sleep_attempts + 1) (by omega)
    have hm2 : (st.low_batt_sleep_attempts + 1) % 4294967296
        = st.low_batt_sleep_attempts + 1 := Nat.mod_eq_of_lt (by omega)
    have hd' : d = 1440 * sleepBackoffSeconds (st.low_batt_sleep_attempts + 1) := by
      cases conn <;>
        simp [qualify_battery_and_hibernate, battery_lower_than, h1, hm2,
          sleep_time_eq] at hd <;> omega
    omega
  · have hsat : 144 * sleep_backoff ((st.low_batt_sleep_attempts + 1) % 2 ^ 32) / 100
        = 184320 := by
      rw [hm, sleep_time_eq, sleepBackoffSeconds_sat _ (by omega)]
    simp only [qualify_battery_and_hibernate, battery_lower_than, h1, decide_True,
      if_true, hsat]
    simp

/-- Witness for C10 at `soc = 10`, counter 20. -/
theorem C10_duration_bounds_w :
    (∃ d, Event.sleep d ∈ (qualify_battery_and_hibernate 10 true (⟨0, 20⟩ : DeviceState)).2) ∧
    (∀ d, Event.sleep d ∈ (qualify_battery_and_hibernate 10 true (⟨0, 20⟩ : DeviceState)).2 →
      1440 ≤ d ∧ d ≤ 184320) ∧
    (20 ≤ (⟨0, 20⟩ : DeviceState).low_batt_sleep_attempts →
      Event.sleep 184320 ∈ (qualify_battery_and_hibernate 10 true (⟨0, 20⟩ : DeviceState)).2) :=
  C10_duration_bounds ⟨0, 20⟩ 10 true (by norm_num [LOW_BATT_CAPACITY]) (by norm_num)
